import Mathlib

/-!
Verification development for the Sentinel-Compass-AI disaster-response core:
the resource estimation engine (`generateResourcePrediction` in
`src/components/EmergencyActions.tsx`) and the notification fan-out
dispatcher (`src/services/emergencyCommunicationService.ts`, embedded from
`WeatherPanel.tsx` lines 175-424, and `handleEmergencyAction` in the
unnamed component file).

Numbers are modelled as exact rationals (the source values are all exactly
representable), and `Math.round` as `jsRound q = ⌊q + 1/2⌋`, which is the
JavaScript round-half-toward-positive-infinity rule.
-/

namespace Sentinel

/-! ## Resource estimation engine -/

inductive DisasterType
  | flood | fire | earthquake | hurricane
deriving DecidableEq, Repr

inductive Severity
  | low | medium | high | critical
deriving DecidableEq, Repr

/-- Scenario values as validated by the form schema: `disasterType`,
`severity`, `populationAffected`, `areaSize`, optional `magnitude`. -/
structure ScenarioValues where
  disasterType : DisasterType
  severity : Severity
  populationAffected : ℚ
  areaSize : ℚ
  magnitude : Option ℚ
deriving DecidableEq, Repr

/-- Per-resource vector of rationals, matching the seven numeric resource
keys used by `baseResources` and `disasterAdjustments` in the source. -/
structure ResourceVector where
  food : ℚ
  water : ℚ
  rescuers : ℚ
  medicalStaff : ℚ
  shelters : ℚ
  capacity : ℚ
  vehicles : ℚ
deriving DecidableEq, Repr

/-- Base resource values per 1000 people (source `baseResources`). -/
def baseResources : ResourceVector :=
  ⟨3000, 5000, 20, 15, 3, 400, 10⟩

/-- Severity multipliers (source `severityMultiplier`). -/
def severityMultiplier : Severity → ℚ
  | Severity.low => 0.7
  | Severity.medium => 1.0
  | Severity.high => 1.5
  | Severity.critical => 2.5

/-- Disaster type adjustments relative to base (source `disasterAdjustments`). -/
def disasterAdjustments : DisasterType → ResourceVector
  | DisasterType.flood => ⟨1.2, 1.5, 1.3, 1.0, 1.2, 1.0, 1.5⟩
  | DisasterType.fire => ⟨1.0, 1.3, 1.5, 1.2, 1.0, 1.0, 1.2⟩
  | DisasterType.earthquake => ⟨1.3, 1.4, 2.0, 1.8, 1.5, 0.8, 1.3⟩
  | DisasterType.hurricane => ⟨1.4, 1.3, 1.4, 1.3, 1.5, 0.9, 1.1⟩

/-- JavaScript `Math.round`: round half toward positive infinity. -/
def jsRound (q : ℚ) : ℤ := ⌊q + 1 / 2⌋

/-- Source: `const populationScale = values.populationAffected / 1000`. -/
def populationScale (v : ScenarioValues) : ℚ := v.populationAffected / 1000

/-- Pre-rounding food quantity. -/
def foodRaw (v : ScenarioValues) : ℚ :=
  baseResources.food * severityMultiplier v.severity *
    (disasterAdjustments v.disasterType).food * populationScale v

/-- Pre-rounding water quantity. -/
def waterRaw (v : ScenarioValues) : ℚ :=
  baseResources.water * severityMultiplier v.severity *
    (disasterAdjustments v.disasterType).water * populationScale v

/-- Pre-rounding rescuers quantity. -/
def rescuersRaw (v : ScenarioValues) : ℚ :=
  baseResources.rescuers * severityMultiplier v.severity *
    (disasterAdjustments v.disasterType).rescuers * populationScale v

/-- Pre-rounding medical staff quantity. -/
def medicalStaffRaw (v : ScenarioValues) : ℚ :=
  baseResources.medicalStaff * severityMultiplier v.severity *
    (disasterAdjustments v.disasterType).medicalStaff * populationScale v

/-- Pre-rounding shelters quantity (also scaled by `areaSize / 100`). -/
def sheltersRaw (v : ScenarioValues) : ℚ :=
  baseResources.shelters * severityMultiplier v.severity *
    (disasterAdjustments v.disasterType).shelters * populationScale v *
    (v.areaSize / 100)

/-- Pre-rounding capacity quantity (no severity, no population scaling). -/
def capacityRaw (v : ScenarioValues) : ℚ :=
  baseResources.capacity * (disasterAdjustments v.disasterType).capacity

/-- Pre-rounding vehicles quantity. -/
def vehiclesRaw (v : ScenarioValues) : ℚ :=
  baseResources.vehicles * severityMultiplier v.severity *
    (disasterAdjustments v.disasterType).vehicles * populationScale v

/-- Specialized rescue team catalogs per disaster type (source `rescueTypes`). -/
def rescueTypes : DisasterType → List String
  | DisasterType.flood =>
      ["Boat Rescue Teams", "Swift Water Technicians", "Helicopter Rescue Units"]
  | DisasterType.fire =>
      ["Wildland Firefighters", "High-Rise Rescue Teams", "Hazmat Specialists"]
  | DisasterType.earthquake =>
      ["Urban Search & Rescue", "Heavy Extraction Teams", "Structural Engineers",
       "Canine Units"]
  | DisasterType.hurricane =>
      ["Water Rescue Teams", "Airlift Units", "Debris Removal Specialists"]

/-- Medical equipment catalogs per disaster type (source `medicalEquipment`). -/
def medicalEquipmentCatalog : DisasterType → List String
  | DisasterType.flood =>
      ["Water Purification Systems", "Antibiotics", "Tetanus Vaccines",
       "Hypothermia Treatment Kits"]
  | DisasterType.fire =>
      ["Burn Treatment Units", "Respiratory Support", "Eye Wash Stations",
       "Smoke Inhalation Kits"]
  | DisasterType.earthquake =>
      ["Trauma Surgery Kits", "Crush Syndrome Treatment", "Blood Supplies",
       "Orthopedic Equipment", "Portable X-ray Machines"]
  | DisasterType.hurricane =>
      ["Field Hospital Units", "Wound Care Supplies", "Tetanus Vaccines",
       "IV Fluids"]

/-- Vehicle type catalogs per disaster type (source `vehicleTypes`). -/
def vehicleTypesCatalog : DisasterType → List String
  | DisasterType.flood =>
      ["Amphibious Vehicles", "High-Clearance Trucks", "Rescue Boats",
       "Helicopters"]
  | DisasterType.fire =>
      ["Fire Engines", "Water Tankers", "Aerial Ladder Trucks",
       "Command Vehicles"]
  | DisasterType.earthquake =>
      ["Heavy Excavators", "Search & Rescue Trucks", "Medical Transport Vehicles",
       "Debris Removal Equipment"]
  | DisasterType.hurricane =>
      ["High-Water Vehicles", "Debris Clearance Trucks", "Evacuation Buses",
       "Supply Transport"]

/-- Source: `const severityIndexMap = { low: 1, medium: 2, high: 3, critical: 4 }`. -/
def severityIndexMap : Severity → ℕ
  | Severity.low => 1
  | Severity.medium => 2
  | Severity.high => 3
  | Severity.critical => 4

/-- The prediction result record produced by `generateResourcePrediction`. -/
structure PredictionResult where
  food : ℤ
  water : ℤ
  rescuers : ℤ
  medicalStaff : ℤ
  shelters : ℤ
  capacity : ℤ
  vehicles : ℤ
  magnitude : Option ℚ
  disasterType : DisasterType
  rescueType : List String
  medicalEquipment : List String
  vehicleTypes : List String
deriving DecidableEq, Repr

/-- Embedding of the source `generateResourcePrediction` computation. -/
def generateResourcePrediction (v : ScenarioValues) : PredictionResult :=
  { food := jsRound (foodRaw v)
    water := jsRound (waterRaw v)
    rescuers := jsRound (rescuersRaw v)
    medicalStaff := jsRound (medicalStaffRaw v)
    shelters := jsRound (sheltersRaw v)
    capacity := jsRound (capacityRaw v)
    vehicles := jsRound (vehiclesRaw v)
    magnitude := v.magnitude
    disasterType := v.disasterType
    rescueType := (rescueTypes v.disasterType).take (severityIndexMap v.severity)
    medicalEquipment :=
      (medicalEquipmentCatalog v.disasterType).take (severityIndexMap v.severity)
    vehicleTypes :=
      (vehicleTypesCatalog v.disasterType).take (severityIndexMap v.severity) }

/-! ## Notification dispatcher -/

inductive Channel
  | sms | email | push
deriving DecidableEq, Repr

/-- One channel-sender invocation: `sendSMS(target, message)`,
`sendEmail(target, subject, message)` or `sendPushNotification(target, title,
message)`. The `subjectOrTitle` field is `none` for SMS. -/
structure SendCall where
  channel : Channel
  target : String
  subjectOrTitle : Option String
  message : String
deriving DecidableEq, Repr

/-- Source `ContactInfo`. -/
structure ContactInfo where
  name : String
  role : String
  phoneNumber : String
  email : String
deriving DecidableEq, Repr

/-- Source `EmergencyTeam`. -/
structure EmergencyTeam where
  teamName : String
  teamHead : ContactInfo
  members : List ContactInfo
deriving DecidableEq, Repr

/-- Source `EmergencyConfig`. -/
structure EmergencyConfig where
  evacuationTeam : EmergencyTeam
  alertTeam : EmergencyTeam
  resourcesTeam : EmergencyTeam
  allClearTeam : EmergencyTeam
  regionDevices : List String
deriving DecidableEq, Repr

/-- Source `defaultEmergencyConfig`: four teams of one head and two members,
and three region devices (two phone numbers and one laptop id). -/
def defaultEmergencyConfig : EmergencyConfig :=
  ⟨⟨"Evacuation Response",
    ⟨"Sarah Johnson", "Evacuation Director", "+1-555-123-4567",
      "sjohnson@emergency.org"⟩,
    [⟨"Mike Roberts", "Field Coordinator", "+1-555-234-5678",
       "mroberts@emergency.org"⟩,
     ⟨"Lisa Chen", "Transportation Lead", "+1-555-345-6789",
       "lchen@emergency.org"⟩]⟩,
   ⟨"Public Alert System",
    ⟨"David Williams", "Alert System Director", "+1-555-456-7890",
      "dwilliams@emergency.org"⟩,
    [⟨"Carlos Rodriguez", "Communications Specialist", "+1-555-567-8901",
       "crodriguez@emergency.org"⟩,
     ⟨"Aisha Patel", "Media Relations", "+1-555-678-9012",
       "apatel@emergency.org"⟩]⟩,
   ⟨"Resource Management",
    ⟨"Robert Kim", "Resource Director", "+1-555-789-0123",
      "rkim@emergency.org"⟩,
    [⟨"Jane Martinez", "Supply Chain Manager", "+1-555-890-1234",
       "jmartinez@emergency.org"⟩,
     ⟨"Sam Taylor", "Equipment Coordinator", "+1-555-901-2345",
       "staylor@emergency.org"⟩]⟩,
   ⟨"All Clear Operations",
    ⟨"Emma Wilson", "Operations Director", "+1-555-012-3456",
      "ewilson@emergency.org"⟩,
    [⟨"Thomas Brown", "Safety Inspector", "+1-555-123-4567",
       "tbrown@emergency.org"⟩,
     ⟨"Nina Garcia", "Community Liaison", "+1-555-234-5678",
       "ngarcia@emergency.org"⟩]⟩,
   ["+1-555-111-2222", "+1-555-333-4444", "laptop-id-12345"]⟩

/-- JavaScript `device.startsWith("+")`, modelled on the string's character
data: true exactly when the first character is `+`. -/
def startsWithPlus (s : String) : Bool :=
  match s.data with
  | [] => false
  | c :: _ => c = '+'

/-- The two sends issued for one human contact: SMS to the phone number, then
Email to the address, in that order (source loop body). -/
def contactCalls (c : ContactInfo) (subject message : String) : List SendCall :=
  [⟨Channel.sms, c.phoneNumber, none, message⟩,
   ⟨Channel.email, c.email, some subject, message⟩]

/-- Sends for a member list, in declared order (source `for...of` loop). -/
def membersCalls (subject message : String) : List ContactInfo → List SendCall
  | [] => []
  | m :: ms => contactCalls m subject message ++ membersCalls subject message ms

/-- Sends for a whole team: head first, then members. -/
def teamCalls (t : EmergencyTeam) (subject message : String) : List SendCall :=
  contactCalls t.teamHead subject message ++
    membersCalls subject message t.members

/-- The single send issued for one region device: SMS when the identifier
starts with `+`, otherwise Push. -/
def deviceCall (title message : String) (d : String) : SendCall :=
  if startsWithPlus d then ⟨Channel.sms, d, none, message⟩
  else ⟨Channel.push, d, some title, message⟩

/-- Sends for the region device list, in declared order. -/
def deviceCalls (title message : String) (devices : List String) :
    List SendCall :=
  devices.map (deviceCall title message)

/-- Message composed by `initiateEvacuation`. -/
def evacuationMessage (regionName : String) : String :=
  "URGENT: Evacuation required in " ++ regionName ++
    ". Implement evacuation protocol immediately."

/-- Email subject composed by `initiateEvacuation`. -/
def evacuationSubject (regionName : String) : String :=
  "URGENT EVACUATION: " ++ regionName

/-- Message composed by `sendRegionAlert`. -/
def alertMessage (regionName alertText : String) : String :=
  "ALERT: " ++ alertText ++ " in " ++ regionName ++
    ". Take appropriate action immediately."

/-- Email subject composed by `sendRegionAlert`. -/
def alertSubject (regionName : String) : String :=
  "REGION ALERT: " ++ regionName

/-- Message composed by `requestEmergencyResources`. -/
def resourcesMessage (regionName : String) (resourcesNeeded : List String) :
    String :=
  "RESOURCE REQUEST: The following resources are needed in " ++ regionName ++
    ": " ++ String.intercalate ", " resourcesNeeded

/-- Email subject composed by `requestEmergencyResources`. -/
def resourcesSubject (regionName : String) : String :=
  "RESOURCE REQUEST: " ++ regionName

/-- Message composed by `signalAllClear`. -/
def allClearMessage (regionName : String) : String :=
  "ALL CLEAR: The emergency situation in " ++ regionName ++
    " has been resolved. You may return to normal operations."

/-- Email subject composed by `signalAllClear`. -/
def allClearSubject (regionName : String) : String :=
  "ALL CLEAR: " ++ regionName

/-- The sequence of sends `initiateEvacuation` performs when nothing throws:
evacuation team head (SMS then Email), then each member (SMS then Email).
Region devices are not used. -/
def evacuationCalls (regionName : String) (config : EmergencyConfig) :
    List SendCall :=
  teamCalls config.evacuationTeam (evacuationSubject regionName)
    (evacuationMessage regionName)

/-- The sequence of sends `sendRegionAlert` performs when nothing throws:
alert team (head then members, SMS then Email each), then one send per
region device. -/
def alertCalls (regionName alertText : String) (config : EmergencyConfig) :
    List SendCall :=
  teamCalls config.alertTeam (alertSubject regionName)
      (alertMessage regionName alertText) ++
    deviceCalls "EMERGENCY ALERT" (alertMessage regionName alertText)
      config.regionDevices

/-- The sequence of sends `requestEmergencyResources` performs when nothing
throws. -/
def resourcesCalls (regionName : String) (resourcesNeeded : List String)
    (config : EmergencyConfig) : List SendCall :=
  teamCalls config.resourcesTeam (resourcesSubject regionName)
    (resourcesMessage regionName resourcesNeeded)

/-- The sequence of sends `signalAllClear` performs when nothing throws:
all-clear team, then one send per region device. -/
def allClearCalls (regionName : String) (config : EmergencyConfig) :
    List SendCall :=
  teamCalls config.allClearTeam (allClearSubject regionName)
      (allClearMessage regionName) ++
    deviceCalls "ALL CLEAR" (allClearMessage regionName)
      config.regionDevices

/-- Behavior of one channel-sender invocation: it either returns a boolean
(`ok`) or throws (`threw`). -/
inductive SendOutcome
  | ok (success : Bool)
  | threw
deriving DecidableEq, Repr

/-- Sequential awaited execution of a call list against a sender. Returns the
trace of calls actually invoked and the boolean the dispatcher returns. The
source awaits each send in order inside a `try` block and returns `true` at
the end without inspecting the booleans the sends returned; a thrown error
aborts the remaining sends and the `catch` returns `false`. -/
def runSends (sender : SendCall → SendOutcome) :
    List SendCall → List SendCall × Bool
  | [] => ([], true)
  | c :: cs =>
    match sender c with
    | SendOutcome.threw => ([c], false)
    | SendOutcome.ok _ =>
      let r := runSends sender cs
      (c :: r.1, r.2)

/-- The four action kinds triggered by `handleEmergencyAction`. -/
inductive ActionKind
  | evacuation | alert | resourcesRequest | allClear
deriving DecidableEq, Repr

/-- The action strings used by the buttons and records. -/
def actionName : ActionKind → String
  | ActionKind.evacuation => "Evacuation"
  | ActionKind.alert => "Alert"
  | ActionKind.resourcesRequest => "Resources Request"
  | ActionKind.allClear => "All Clear"

/-- The fixed resources list `handleEmergencyAction` passes to
`requestEmergencyResources`. -/
def resourcesList : List String :=
  ["Emergency Medical Supplies", "Water Purification Units",
   "Temporary Shelters"]

/-- The alert text `handleEmergencyAction` passes to `sendRegionAlert`. -/
def alertText : String := "Emergency situation in progress"

/-- The call list the service function for each action kind issues. -/
def callsFor (action : ActionKind) (regionName : String)
    (config : EmergencyConfig) : List SendCall :=
  match action with
  | ActionKind.evacuation => evacuationCalls regionName config
  | ActionKind.alert => alertCalls regionName alertText config
  | ActionKind.resourcesRequest =>
      resourcesCalls regionName resourcesList config
  | ActionKind.allClear => allClearCalls regionName config

/-- Embedding of `initiateEvacuation`: trace of sends and returned boolean. -/
def initiateEvacuation (sender : SendCall → SendOutcome)
    (regionName : String) (config : EmergencyConfig) :
    List SendCall × Bool :=
  runSends sender (evacuationCalls regionName config)

/-- Embedding of `sendRegionAlert`. -/
def sendRegionAlert (sender : SendCall → SendOutcome)
    (regionName alertMsg : String) (config : EmergencyConfig) :
    List SendCall × Bool :=
  runSends sender (alertCalls regionName alertMsg config)

/-- Embedding of `requestEmergencyResources`. -/
def requestEmergencyResources (sender : SendCall → SendOutcome)
    (regionName : String) (resourcesNeeded : List String)
    (config : EmergencyConfig) : List SendCall × Bool :=
  runSends sender (resourcesCalls regionName resourcesNeeded config)

/-- Embedding of `signalAllClear`. -/
def signalAllClear (sender : SendCall → SendOutcome)
    (regionName : String) (config : EmergencyConfig) :
    List SendCall × Bool :=
  runSends sender (allClearCalls regionName config)

/-- Record status values. -/
inductive Status
  | pending | success | error
deriving DecidableEq, Repr

/-- One entry of the `recipients` summary of a `NotificationRecord`. -/
structure RecipientSummary where
  recipientType : String
  count : ℕ
deriving DecidableEq, Repr

/-- The `NotificationRecord` fields the dispatcher computes (id and timestamp
are wall-clock values and are not modelled). -/
structure NotificationRecord where
  action : String
  status : Status
  recipients : List RecipientSummary
deriving DecidableEq, Repr

/-- The hard-coded recipient summary `handleEmergencyAction` stores per action
kind, taken verbatim from the four `switch` cases. -/
def recipientsSummary : ActionKind → List RecipientSummary
  | ActionKind.evacuation =>
      [⟨"Team Leaders", 1⟩, ⟨"Team Members", 2⟩]
  | ActionKind.alert =>
      [⟨"Team Leaders", 1⟩, ⟨"Team Members", 2⟩, ⟨"Regional Devices", 3⟩]
  | ActionKind.resourcesRequest =>
      [⟨"Resource Team Lead", 1⟩, ⟨"Resource Coordinators", 2⟩]
  | ActionKind.allClear =>
      [⟨"All Clear Team Lead", 1⟩, ⟨"All Clear Team", 2⟩,
       ⟨"Regional Devices", 3⟩]

/-- Embedding of `handleEmergencyAction`: the final record for one dispatched
action. The record starts in `pending` with the hard-coded recipients summary
and transitions to `success` when the service function returns `true`, to
`error` when it returns `false` (the handler then throws and catches) or when
it throws. -/
def handleEmergencyAction (sender : SendCall → SendOutcome)
    (action : ActionKind) (regionName : String)
    (config : EmergencyConfig) : NotificationRecord :=
  ⟨actionName action,
   if (runSends sender (callsFor action regionName config)).2 then
     Status.success
   else Status.error,
   recipientsSummary action⟩

/-! ## Form validation (zod schema `resourcePredictionSchema`) -/

/-- Raw form input before validation: the enum fields arrive as strings and
the numeric fields as (coerced) numbers. -/
structure RawFormInput where
  disasterType : String
  severity : String
  populationAffected : ℚ
  areaSize : ℚ
  magnitude : Option ℚ
deriving DecidableEq, Repr

/-- Membership test of the `disasterType` zod enum. -/
def parseDisasterType (s : String) : Option DisasterType :=
  if s = "flood" then some DisasterType.flood
  else if s = "fire" then some DisasterType.fire
  else if s = "earthquake" then some DisasterType.earthquake
  else if s = "hurricane" then some DisasterType.hurricane
  else none

/-- Membership test of the `severity` zod enum. -/
def parseSeverity (s : String) : Option Severity :=
  if s = "low" then some Severity.low
  else if s = "medium" then some Severity.medium
  else if s = "high" then some Severity.high
  else if s = "critical" then some Severity.critical
  else none

/-- The optional `magnitude` constraint: `min(1).max(10)` when present. -/
def magnitudeOk : Option ℚ → Bool
  | none => true
  | some m => decide (1 ≤ m) && decide (m ≤ 10)

/-- Embedding of `resourcePredictionSchema.parse`: all field constraints of
the zod schema (`min(1).max(10000000)` on population, `min(1).max(100000)` on
area, enum membership, optional magnitude in [1,10]) must hold, otherwise
validation fails and no scenario is produced. -/
def validateScenario (r : RawFormInput) : Option ScenarioValues :=
  match parseDisasterType r.disasterType, parseSeverity r.severity with
  | some dt, some sv =>
    if decide (1 ≤ r.populationAffected) &&
        decide (r.populationAffected ≤ 10000000) &&
        decide (1 ≤ r.areaSize) && decide (r.areaSize ≤ 100000) &&
        magnitudeOk r.magnitude then
      some ⟨dt, sv, r.populationAffected, r.areaSize, r.magnitude⟩
    else none
  | _, _ => none

/-- The full estimation pipeline as wired in the form: zod validation
followed by `generateResourcePrediction`; invalid input is rejected before
any computation and no plan is produced. -/
def estimate (r : RawFormInput) : Option PredictionResult :=
  (validateScenario r).map generateResourcePrediction

/-- A channel sender whose every send completes but reports failure. -/
def okFalseSender : SendCall → SendOutcome := fun _ => SendOutcome.ok false

/-- A channel sender whose every send completes and reports success (the
behavior of the stubbed senders in the repository). -/
def allOkSender : SendCall → SendOutcome := fun _ => SendOutcome.ok true

/-! ## Dispatcher lemmas -/

/-- The dispatcher returns `true` exactly when no send in the batch throws;
the booleans returned by the sends are never inspected. -/
theorem runSends_result_true_iff (sender : SendCall → SendOutcome)
    (l : List SendCall) :
    (runSends sender l).2 = true ↔ ∀ c ∈ l, sender c ≠ SendOutcome.threw := by
  induction l with
  | nil => simp [runSends]
  | cons c cs ih =>
    cases h : sender c with
    | threw =>
      simp only [runSends, h]
      constructor
      · intro hfalse; cases hfalse
      · intro hall; exact absurd h (hall c (List.mem_cons_self c cs))
    | ok b =>
      simp only [runSends, h]
      rw [ih]
      constructor
      · intro hall c' hc'
        rcases List.mem_cons.mp hc' with rfl | hmem
        · rw [h]; intro hx; cases hx
        · exact hall c' hmem
      · intro hall c' hc'
        exact hall c' (List.mem_cons_of_mem c hc')

/-- When no send throws, the executed trace is the full planned call list. -/
theorem runSends_trace_of_no_throw (sender : SendCall → SendOutcome)
    (l : List SendCall) (h : ∀ c ∈ l, sender c ≠ SendOutcome.threw) :
    (runSends sender l).1 = l := by
  induction l with
  | nil => rfl
  | cons c cs ih =>
    cases hc : sender c with
    | threw => exact absurd hc (h c (List.mem_cons_self c cs))
    | ok b =>
      simp only [runSends, hc]
      exact congrArg (c :: ·) (ih fun c' hc' => h c' (List.mem_cons_of_mem c hc'))

/-- Every call in the executed trace comes from the planned call list. -/
theorem runSends_trace_subset (sender : SendCall → SendOutcome)
    (l : List SendCall) (c : SendCall)
    (hc : c ∈ (runSends sender l).1) : c ∈ l := by
  induction l with
  | nil => cases hc
  | cons d ds ih =>
    cases hd : sender d with
    | threw =>
      rw [runSends, hd] at hc
      rcases List.mem_singleton.mp hc with rfl
      exact List.mem_cons_self _ _
    | ok b =>
      rw [runSends, hd] at hc
      rcases List.mem_cons.mp hc with rfl | hmem
      · exact List.mem_cons_self _ _
      · exact List.mem_cons_of_mem d (ih hmem)

/-- A member loop issues two sends per member. -/
theorem membersCalls_length (subject message : String)
    (ms : List ContactInfo) :
    (membersCalls subject message ms).length = 2 * ms.length := by
  induction ms with
  | nil => rfl
  | cons m ms ih =>
    simp [membersCalls, contactCalls, ih]
    omega

/-- A team fan-out issues two sends per human: head plus each member. -/
theorem teamCalls_length (t : EmergencyTeam) (subject message : String) :
    (teamCalls t subject message).length = 2 * (1 + t.members.length) := by
  simp [teamCalls, contactCalls, membersCalls_length]
  omega

/-- Every call a team fan-out issues is an SMS or an Email, never a Push. -/
theorem teamCalls_no_push (t : EmergencyTeam) (subject message : String)
    (c : SendCall) (hc : c ∈ teamCalls t subject message) :
    c.channel ≠ Channel.push := by
  have aux : ∀ ms : List ContactInfo, ∀ c' ∈ membersCalls subject message ms,
      c'.channel ≠ Channel.push := by
    intro ms
    induction ms with
    | nil => intro c' hc'; cases hc'
    | cons m ms ih =>
      intro c' hc'
      rcases List.mem_append.mp hc' with hm | hm
      · rcases List.mem_cons.mp hm with rfl | hm2
        · intro hx; cases hx
        · rcases List.mem_singleton.mp hm2 with rfl
          intro hx; cases hx
      · exact ih c' hm
  rcases List.mem_append.mp hc with hm | hm
  · rcases List.mem_cons.mp hm with rfl | hm2
    · intro hx; cases hx
    · rcases List.mem_singleton.mp hm2 with rfl
      intro hx; cases hx
  · exact aux t.members c hm

/-! ## Engine lemmas -/

/-- The JavaScript rounding function is monotone. -/
theorem jsRound_mono {a b : ℚ} (h : a ≤ b) : jsRound a ≤ jsRound b :=
  Int.floor_le_floor (by linarith)

/-- The severity multiplier is monotone in the severity index. -/
theorem severityMultiplier_mono {s1 s2 : Severity}
    (h : severityIndexMap s1 ≤ severityIndexMap s2) :
    severityMultiplier s1 ≤ severityMultiplier s2 := by
  cases s1 <;> cases s2 <;> simp only [severityIndexMap] at h <;>
    try (norm_num [severityMultiplier]; done)
  all_goals exact absurd h (by decide)

/-- All disaster-type adjustment factors are nonnegative. -/
theorem disasterAdjustments_nonneg (dt : DisasterType) :
    0 ≤ (disasterAdjustments dt).food ∧ 0 ≤ (disasterAdjustments dt).water ∧
      0 ≤ (disasterAdjustments dt).rescuers ∧
      0 ≤ (disasterAdjustments dt).medicalStaff ∧
      0 ≤ (disasterAdjustments dt).shelters ∧
      0 ≤ (disasterAdjustments dt).vehicles := by
  cases dt <;> norm_num [disasterAdjustments]

/-- Scaled quantity `base * mult * adj * (pop / 1000)` is monotone in the
severity multiplier when all other factors are nonnegative. -/
theorem rawQuantity_mono (base adj pop m1 m2 : ℚ) (hb : 0 ≤ base)
    (ha : 0 ≤ adj) (hp : 0 ≤ pop) (hm : m1 ≤ m2) :
    base * m1 * adj * (pop / 1000) ≤ base * m2 * adj * (pop / 1000) := by
  have h1 : base * m1 ≤ base * m2 := mul_le_mul_of_nonneg_left hm hb
  have h2 : base * m1 * adj ≤ base * m2 * adj :=
    mul_le_mul_of_nonneg_right h1 ha
  exact mul_le_mul_of_nonneg_right h2 (div_nonneg hp (by norm_num))

/-- A shorter take of the same list is a prefix of a longer take. -/
theorem take_prefix_extension {α : Type} (l : List α) {i j : ℕ}
    (h : i ≤ j) : ∃ ext, l.take j = l.take i ++ ext := by
  refine ⟨(l.take j).drop i, ?_⟩
  conv_lhs => rw [← List.take_append_drop i (l.take j)]
  rw [List.take_take, min_eq_left h]

/-! ## Claims -/

/-- Claim C1 counterexample: for the All Clear dispatch over the default
directory (1 lead + 2 members + 3 region devices) with senders that all
return `false` (failure) without throwing, the batch still resolves to
`success`, so the outcome is NOT equivalent to every send returning
success. -/
theorem C1_counterexample :
    ¬ (((handleEmergencyAction okFalseSender ActionKind.allClear "Zone A"
            defaultEmergencyConfig).status = Status.success) ↔
        ∀ c ∈ callsFor ActionKind.allClear "Zone A" defaultEmergencyConfig,
          okFalseSender c = SendOutcome.ok true) := by
  decide

/-- Claim C1 (amended): the aggregate outcome of a dispatch batch is
`success` if and only if no send in the batch throws; the boolean a send
returns is never inspected, so a send returning failure without throwing
still yields a `success` outcome. -/
theorem C1_batch_outcome (sender : SendCall → SendOutcome)
    (action : ActionKind) (regionName : String) (config : EmergencyConfig) :
    (handleEmergencyAction sender action regionName config).status =
        Status.success ↔
      ∀ c ∈ callsFor action regionName config,
        sender c ≠ SendOutcome.threw := by
  unfold handleEmergencyAction
  rw [← runSends_result_true_iff sender (callsFor action regionName config)]
  by_cases h : (runSends sender (callsFor action regionName config)).2 = true
  · simp [h]
  · simp [h]

/-- Claim C4: for an Alert dispatch over any directory in which no send
throws, the number of send invocations is `2 × (1 lead + |members|)` plus one
per region device, a device send being SMS exactly when the identifier starts
with `+` and Push otherwise; an Evacuation dispatch is independent of the
region devices (they are never contacted) and issues no Push send at all. -/
theorem C4_dispatch_completeness (sender : SendCall → SendOutcome)
    (regionName alertMsg : String) (config : EmergencyConfig)
    (hnothrow : ∀ c ∈ alertCalls regionName alertMsg config,
      sender c ≠ SendOutcome.threw) :
    (sendRegionAlert sender regionName alertMsg config).1.length =
        2 * (1 + config.alertTeam.members.length) +
          config.regionDevices.length ∧
      (∀ d ∈ config.regionDevices,
        (deviceCall "EMERGENCY ALERT" (alertMessage regionName alertMsg)
            d).channel =
          if startsWithPlus d then Channel.sms else Channel.push) ∧
      (∀ (sender' : SendCall → SendOutcome) (config' : EmergencyConfig),
        config'.evacuationTeam = config.evacuationTeam →
        (initiateEvacuation sender' regionName config').1 =
          (initiateEvacuation sender' regionName config).1) ∧
      (∀ sender' : SendCall → SendOutcome,
        ∀ c ∈ (initiateEvacuation sender' regionName config).1,
          c.channel ≠ Channel.push) := by
  refine ⟨?_, ?_, ?_, ?_⟩
  · unfold sendRegionAlert
    rw [runSends_trace_of_no_throw sender _ hnothrow]
    simp [alertCalls, deviceCalls, teamCalls_length]
  · intro d _
    by_cases h : startsWithPlus d <;> simp [deviceCall, h]
  · intro sender' config' hteam
    unfold initiateEvacuation evacuationCalls
    rw [hteam]
  · intro sender' c hc
    exact teamCalls_no_push _ _ _ c (runSends_trace_subset sender' _ c hc)

/-- Witness for C4 at the default directory with the repository's
always-succeeding senders: 2 × (1 + 2) + 3 = 9 sends. -/
theorem C4_witness :
    (∀ c ∈ alertCalls "Zone A" alertText defaultEmergencyConfig,
        allOkSender c ≠ SendOutcome.threw) ∧
      ((sendRegionAlert allOkSender "Zone A" alertText
            defaultEmergencyConfig).1.length =
          2 * (1 + defaultEmergencyConfig.alertTeam.members.length) +
            defaultEmergencyConfig.regionDevices.length ∧
        (∀ d ∈ defaultEmergencyConfig.regionDevices,
          (deviceCall "EMERGENCY ALERT" (alertMessage "Zone A" alertText)
              d).channel =
            if startsWithPlus d then Channel.sms else Channel.push) ∧
        (∀ (sender' : SendCall → SendOutcome) (config' : EmergencyConfig),
          config'.evacuationTeam = defaultEmergencyConfig.evacuationTeam →
          (initiateEvacuation sender' "Zone A" config').1 =
            (initiateEvacuation sender' "Zone A" defaultEmergencyConfig).1) ∧
        (∀ sender' : SendCall → SendOutcome,
          ∀ c ∈ (initiateEvacuation sender' "Zone A"
              defaultEmergencyConfig).1,
            c.channel ≠ Channel.push)) :=
  ⟨(fun _ _ h => nomatch h),
   C4_dispatch_completeness allOkSender "Zone A" alertText
     defaultEmergencyConfig (fun _ _ h => nomatch h)⟩

/-- Claim C10: the recipient-count summary stored in a dispatched action's
`NotificationRecord` is the hard-coded constant list determined solely by
the action kind, independent of the directory configuration, the sender
behavior and the region used for the sends. -/
theorem C10_recipients_summary_constant (sender : SendCall → SendOutcome)
    (action : ActionKind) (regionName : String) (config : EmergencyConfig) :
    (handleEmergencyAction sender action regionName config).recipients =
        recipientsSummary action ∧
      (∀ (sender' : SendCall → SendOutcome) (regionName' : String)
          (config' : EmergencyConfig),
        (handleEmergencyAction sender action regionName config).recipients =
          (handleEmergencyAction sender' action regionName' config').recipients) ∧
      recipientsSummary ActionKind.evacuation =
        [⟨"Team Leaders", 1⟩, ⟨"Team Members", 2⟩] ∧
      recipientsSummary ActionKind.alert =
        [⟨"Team Leaders", 1⟩, ⟨"Team Members", 2⟩, ⟨"Regional Devices", 3⟩] ∧
      recipientsSummary ActionKind.resourcesRequest =
        [⟨"Resource Team Lead", 1⟩, ⟨"Resource Coordinators", 2⟩] ∧
      recipientsSummary ActionKind.allClear =
        [⟨"All Clear Team Lead", 1⟩, ⟨"All Clear Team", 2⟩,
         ⟨"Regional Devices", 3⟩] :=
  ⟨rfl, fun _ _ _ => rfl, rfl, rfl, rfl, rfl⟩

/-- Claim C2 counterexample: for a flood scenario of critical severity the
rescue-team list has only 3 entries, not the 4 the severity tier demands
(the flood catalog has just 3 entries and `slice(0, 4)` cannot extend it). -/
theorem C2_counterexample :
    ¬ ((generateResourcePrediction
          ⟨DisasterType.flood, Severity.critical, 1000, 100,
            none⟩).rescueType.length =
        severityIndexMap Severity.critical) := by
  decide

/-- Claim C2 (amended): each of the three specialized-resource lists is the
prefix of the corresponding per-disaster-type catalog of length
`min(severity tier, catalog length)` — equal to the tier (1/2/3/4) whenever
the catalog has at least that many entries, and the whole catalog
otherwise. -/
theorem C2_catalog_prefix_tiers (v : ScenarioValues) :
    (generateResourcePrediction v).rescueType =
        (rescueTypes v.disasterType).take (severityIndexMap v.severity) ∧
      (generateResourcePrediction v).rescueType.length =
        min (severityIndexMap v.severity) (rescueTypes v.disasterType).length ∧
      (∃ ext, rescueTypes v.disasterType =
        (generateResourcePrediction v).rescueType ++ ext) ∧
      (generateResourcePrediction v).medicalEquipment =
        (medicalEquipmentCatalog v.disasterType).take
          (severityIndexMap v.severity) ∧
      (generateResourcePrediction v).medicalEquipment.length =
        min (severityIndexMap v.severity)
          (medicalEquipmentCatalog v.disasterType).length ∧
      (∃ ext, medicalEquipmentCatalog v.disasterType =
        (generateResourcePrediction v).medicalEquipment ++ ext) ∧
      (generateResourcePrediction v).vehicleTypes =
        (vehicleTypesCatalog v.disasterType).take
          (severityIndexMap v.severity) ∧
      (generateResourcePrediction v).vehicleTypes.length =
        min (severityIndexMap v.severity)
          (vehicleTypesCatalog v.disasterType).length ∧
      (∃ ext, vehicleTypesCatalog v.disasterType =
        (generateResourcePrediction v).vehicleTypes ++ ext) := by
  refine ⟨rfl, ?_, ?_, rfl, ?_, ?_, rfl, ?_, ?_⟩
  · simp [generateResourcePrediction, List.length_take]
  · exact ⟨(rescueTypes v.disasterType).drop (severityIndexMap v.severity),
      (List.take_append_drop _ _).symm⟩
  · simp [generateResourcePrediction, List.length_take]
  · exact ⟨(medicalEquipmentCatalog v.disasterType).drop
        (severityIndexMap v.severity),
      (List.take_append_drop _ _).symm⟩
  · simp [generateResourcePrediction, List.length_take]
  · exact ⟨(vehicleTypesCatalog v.disasterType).drop
        (severityIndexMap v.severity),
      (List.take_append_drop _ _).symm⟩

/-- Claim C3: earthquake, high severity, 5000 affected, 200 km² gives 300
rescuers, capacity 320 and 68 shelters. -/
theorem C3_concrete_earthquake_high :
    (generateResourcePrediction
        ⟨DisasterType.earthquake, Severity.high, 5000, 200,
          none⟩).rescuers = 300 ∧
      (generateResourcePrediction
        ⟨DisasterType.earthquake, Severity.high, 5000, 200,
          none⟩).capacity = 320 ∧
      (generateResourcePrediction
        ⟨DisasterType.earthquake, Severity.high, 5000, 200,
          none⟩).shelters = 68 := by
  refine ⟨?_, ?_, ?_⟩ <;>
    norm_num [generateResourcePrediction, jsRound, rescuersRaw, capacityRaw,
      sheltersRaw, baseResources, severityMultiplier, disasterAdjustments,
      populationScale]

/-- Claim C5: with all other fields fixed and a valid population/area,
raising the severity never decreases food, water, rescuers, medical staff or
vehicles, and the three catalog lists grow (in the prefix-extension sense)
with severity. -/
theorem C5_severity_monotonicity (dt : DisasterType) (pop area : ℚ)
    (mag : Option ℚ) (s1 s2 : Severity) (hpop : 1 ≤ pop)
    (_hpop2 : pop ≤ 10000000) (_harea : 1 ≤ area) (_harea2 : area ≤ 100000)
    (hs : severityIndexMap s1 ≤ severityIndexMap s2) :
    (generateResourcePrediction ⟨dt, s1, pop, area, mag⟩).food ≤
        (generateResourcePrediction ⟨dt, s2, pop, area, mag⟩).food ∧
      (generateResourcePrediction ⟨dt, s1, pop, area, mag⟩).water ≤
        (generateResourcePrediction ⟨dt, s2, pop, area, mag⟩).water ∧
      (generateResourcePrediction ⟨dt, s1, pop, area, mag⟩).rescuers ≤
        (generateResourcePrediction ⟨dt, s2, pop, area, mag⟩).rescuers ∧
      (generateResourcePrediction ⟨dt, s1, pop, area, mag⟩).medicalStaff ≤
        (generateResourcePrediction ⟨dt, s2, pop, area, mag⟩).medicalStaff ∧
      (generateResourcePrediction ⟨dt, s1, pop, area, mag⟩).vehicles ≤
        (generateResourcePrediction ⟨dt, s2, pop, area, mag⟩).vehicles ∧
      (generateResourcePrediction ⟨dt, s1, pop, area, mag⟩).rescueType.length ≤
        (generateResourcePrediction ⟨dt, s2, pop, area, mag⟩).rescueType.length ∧
      (generateResourcePrediction
          ⟨dt, s1, pop, area, mag⟩).medicalEquipment.length ≤
        (generateResourcePrediction
          ⟨dt, s2, pop, area, mag⟩).medicalEquipment.length ∧
      (generateResourcePrediction ⟨dt, s1, pop, area, mag⟩).vehicleTypes.length ≤
        (generateResourcePrediction ⟨dt, s2, pop, area, mag⟩).vehicleTypes.length ∧
      (∃ ext, (generateResourcePrediction ⟨dt, s2, pop, area, mag⟩).rescueType =
        (generateResourcePrediction ⟨dt, s1, pop, area, mag⟩).rescueType ++ ext) ∧
      (∃ ext,
        (generateResourcePrediction ⟨dt, s2, pop, area, mag⟩).medicalEquipment =
          (generateResourcePrediction
            ⟨dt, s1, pop, area, mag⟩).medicalEquipment ++ ext) ∧
      (∃ ext, (generateResourcePrediction ⟨dt, s2, pop, area, mag⟩).vehicleTypes =
        (generateResourcePrediction
          ⟨dt, s1, pop, area, mag⟩).vehicleTypes ++ ext) := by
  have hm := severityMultiplier_mono hs
  have hp : (0 : ℚ) ≤ pop := le_trans zero_le_one hpop
  obtain ⟨haf, haw, har, ham, hash, hav⟩ := disasterAdjustments_nonneg dt
  refine ⟨?_, ?_, ?_, ?_, ?_, ?_, ?_, ?_, ?_, ?_, ?_⟩
  · exact jsRound_mono (rawQuantity_mono 3000 ((disasterAdjustments dt).food)
      pop _ _ (by norm_num) haf hp hm)
  · exact jsRound_mono (rawQuantity_mono 5000 ((disasterAdjustments dt).water)
      pop _ _ (by norm_num) haw hp hm)
  · exact jsRound_mono (rawQuantity_mono 20 ((disasterAdjustments dt).rescuers)
      pop _ _ (by norm_num) har hp hm)
  · exact jsRound_mono (rawQuantity_mono 15
      ((disasterAdjustments dt).medicalStaff) pop _ _ (by norm_num) ham hp hm)
  · exact jsRound_mono (rawQuantity_mono 10 ((disasterAdjustments dt).vehicles)
      pop _ _ (by norm_num) hav hp hm)
  · simp only [generateResourcePrediction, List.length_take]
    exact min_le_min hs le_rfl
  · simp only [generateResourcePrediction, List.length_take]
    exact min_le_min hs le_rfl
  · simp only [generateResourcePrediction, List.length_take]
    exact min_le_min hs le_rfl
  · exact take_prefix_extension (rescueTypes dt) hs
  · exact take_prefix_extension (medicalEquipmentCatalog dt) hs
  · exact take_prefix_extension (vehicleTypesCatalog dt) hs

/-- Witness for C5: flood, population 1000, area 100, severity low vs
high. -/
theorem C5_witness :
    ((1 : ℚ) ≤ 1000 ∧ (1000 : ℚ) ≤ 10000000 ∧ (1 : ℚ) ≤ 100 ∧
        (100 : ℚ) ≤ 100000 ∧
        severityIndexMap Severity.low ≤ severityIndexMap Severity.high) ∧
      ((generateResourcePrediction
          ⟨DisasterType.flood, Severity.low, 1000, 100, none⟩).food ≤
        (generateResourcePrediction
          ⟨DisasterType.flood, Severity.high, 1000, 100, none⟩).food) :=
  ⟨⟨by norm_num, by norm_num, by norm_num, by norm_num, by decide⟩,
    (C5_severity_monotonicity DisasterType.flood 1000 100 none Severity.low
      Severity.high (by norm_num) (by norm_num) (by norm_num) (by norm_num)
      (by decide)).1⟩

/-- Claim C6: doubling the affected population doubles every
population-scaled quantity exactly up to rounding (the doubled-input value is
the rounding of twice the pre-rounding value) and leaves capacity
unchanged. -/
theorem C6_population_scaling (dt : DisasterType) (sv : Severity)
    (pop area : ℚ) (mag : Option ℚ) :
    (generateResourcePrediction ⟨dt, sv, 2 * pop, area, mag⟩).food =
        jsRound (2 * foodRaw ⟨dt, sv, pop, area, mag⟩) ∧
      (generateResourcePrediction ⟨dt, sv, 2 * pop, area, mag⟩).water =
        jsRound (2 * waterRaw ⟨dt, sv, pop, area, mag⟩) ∧
      (generateResourcePrediction ⟨dt, sv, 2 * pop, area, mag⟩).rescuers =
        jsRound (2 * rescuersRaw ⟨dt, sv, pop, area, mag⟩) ∧
      (generateResourcePrediction ⟨dt, sv, 2 * pop, area, mag⟩).medicalStaff =
        jsRound (2 * medicalStaffRaw ⟨dt, sv, pop, area, mag⟩) ∧
      (generateResourcePrediction ⟨dt, sv, 2 * pop, area, mag⟩).shelters =
        jsRound (2 * sheltersRaw ⟨dt, sv, pop, area, mag⟩) ∧
      (generateResourcePrediction ⟨dt, sv, 2 * pop, area, mag⟩).vehicles =
        jsRound (2 * vehiclesRaw ⟨dt, sv, pop, area, mag⟩) ∧
      (generateResourcePrediction ⟨dt, sv, 2 * pop, area, mag⟩).capacity =
        (generateResourcePrediction ⟨dt, sv, pop, area, mag⟩).capacity := by
  refine ⟨?_, ?_, ?_, ?_, ?_, ?_, rfl⟩ <;>
    · simp only [generateResourcePrediction]
      congr 1
      simp only [foodRaw, waterRaw, rescuersRaw, medicalStaffRaw, sheltersRaw,
        vehiclesRaw, populationScale]
      ring

/-- Claim C7: doubling the area doubles the shelters quantity up to rounding
and leaves every other plan field unchanged. -/
theorem C7_area_scaling (dt : DisasterType) (sv : Severity) (pop area : ℚ)
    (mag : Option ℚ) :
    (generateResourcePrediction ⟨dt, sv, pop, 2 * area, mag⟩).shelters =
        jsRound (2 * sheltersRaw ⟨dt, sv, pop, area, mag⟩) ∧
      (generateResourcePrediction ⟨dt, sv, pop, 2 * area, mag⟩).food =
        (generateResourcePrediction ⟨dt, sv, pop, area, mag⟩).food ∧
      (generateResourcePrediction ⟨dt, sv, pop, 2 * area, mag⟩).water =
        (generateResourcePrediction ⟨dt, sv, pop, area, mag⟩).water ∧
      (generateResourcePrediction ⟨dt, sv, pop, 2 * area, mag⟩).rescuers =
        (generateResourcePrediction ⟨dt, sv, pop, area, mag⟩).rescuers ∧
      (generateResourcePrediction ⟨dt, sv, pop, 2 * area, mag⟩).medicalStaff =
        (generateResourcePrediction ⟨dt, sv, pop, area, mag⟩).medicalStaff ∧
      (generateResourcePrediction ⟨dt, sv, pop, 2 * area, mag⟩).capacity =
        (generateResourcePrediction ⟨dt, sv, pop, area, mag⟩).capacity ∧
      (generateResourcePrediction ⟨dt, sv, pop, 2 * area, mag⟩).vehicles =
        (generateResourcePrediction ⟨dt, sv, pop, area, mag⟩).vehicles ∧
      (generateResourcePrediction ⟨dt, sv, pop, 2 * area, mag⟩).rescueType =
        (generateResourcePrediction ⟨dt, sv, pop, area, mag⟩).rescueType ∧
      (generateResourcePrediction ⟨dt, sv, pop, 2 * area, mag⟩).medicalEquipment =
        (generateResourcePrediction ⟨dt, sv, pop, area, mag⟩).medicalEquipment ∧
      (generateResourcePrediction ⟨dt, sv, pop, 2 * area, mag⟩).vehicleTypes =
        (generateResourcePrediction ⟨dt, sv, pop, area, mag⟩).vehicleTypes := by
  refine ⟨?_, rfl, rfl, rfl, rfl, rfl, rfl, rfl, rfl, rfl⟩
  simp only [generateResourcePrediction]
  congr 1
  simp only [sheltersRaw, populationScale]
  ring

/-- Claim C8: population 0 or above 10,000,000, area 0 or above 100,000, or
an unrecognized disaster-type or severity string all fail schema validation,
so the estimation pipeline rejects the input before any computation and no
plan is produced. -/
theorem C8_boundary_rejection (r : RawFormInput)
    (h : r.populationAffected = 0 ∨ 10000000 < r.populationAffected ∨
      r.areaSize = 0 ∨ 100000 < r.areaSize ∨
      parseDisasterType r.disasterType = none ∨
      parseSeverity r.severity = none) :
    estimate r = none := by
  unfold estimate validateScenario
  cases hdt : parseDisasterType r.disasterType with
  | none => cases hsv : parseSeverity r.severity <;> rfl
  | some dt =>
    cases hsv : parseSeverity r.severity with
    | none => rfl
    | some sv =>
      rcases h with h | h | h | h | h | h
      · have hb : decide (1 ≤ r.populationAffected) = false :=
          decide_eq_false (by rw [h]; norm_num)
        simp [hb]
      · have hb : decide (r.populationAffected ≤ 10000000) = false :=
          decide_eq_false (not_le.mpr h)
        simp [hb]
      · have hb : decide (1 ≤ r.areaSize) = false :=
          decide_eq_false (by rw [h]; norm_num)
        simp [hb]
      · have hb : decide (r.areaSize ≤ 100000) = false :=
          decide_eq_false (not_le.mpr h)
        simp [hb]
      · rw [hdt] at h; cases h
      · rw [hsv] at h; cases h

/-- Witness for C8: a population of zero is rejected and no plan is
produced. -/
theorem C8_witness :
    ((⟨"flood", "medium", 0, 100, none⟩ :
          RawFormInput).populationAffected = 0 ∨
        10000000 < (⟨"flood", "medium", 0, 100, none⟩ :
          RawFormInput).populationAffected ∨
        (⟨"flood", "medium", 0, 100, none⟩ : RawFormInput).areaSize = 0 ∨
        100000 < (⟨"flood", "medium", 0, 100, none⟩ :
          RawFormInput).areaSize ∨
        parseDisasterType (⟨"flood", "medium", 0, 100, none⟩ :
          RawFormInput).disasterType = none ∨
        parseSeverity (⟨"flood", "medium", 0, 100, none⟩ :
          RawFormInput).severity = none) ∧
      estimate ⟨"flood", "medium", 0, 100, none⟩ = none :=
  ⟨Or.inl rfl,
    C8_boundary_rejection ⟨"flood", "medium", 0, 100, none⟩ (Or.inl rfl)⟩

/-- Claim C9: two earthquake scenarios differing only in the magnitude field
yield plans with identical numeric quantities and identical catalog lists,
and the magnitude is attached to each plan unchanged. -/
theorem C9_magnitude_noninterference (sv : Severity) (pop area : ℚ)
    (m1 m2 : Option ℚ) :
    (generateResourcePrediction
          ⟨DisasterType.earthquake, sv, pop, area, m1⟩).food =
        (generateResourcePrediction
          ⟨DisasterType.earthquake, sv, pop, area, m2⟩).food ∧
      (generateResourcePrediction
          ⟨DisasterType.earthquake, sv, pop, area, m1⟩).water =
        (generateResourcePrediction
          ⟨DisasterType.earthquake, sv, pop, area, m2⟩).water ∧
      (generateResourcePrediction
          ⟨DisasterType.earthquake, sv, pop, area, m1⟩).rescuers =
        (generateResourcePrediction
          ⟨DisasterType.earthquake, sv, pop, area, m2⟩).rescuers ∧
      (generateResourcePrediction
          ⟨DisasterType.earthquake, sv, pop, area, m1⟩).medicalStaff =
        (generateResourcePrediction
          ⟨DisasterType.earthquake, sv, pop, area, m2⟩).medicalStaff ∧
      (generateResourcePrediction
          ⟨DisasterType.earthquake, sv, pop, area, m1⟩).shelters =
        (generateResourcePrediction
          ⟨DisasterType.earthquake, sv, pop, area, m2⟩).shelters ∧
      (generateResourcePrediction
          ⟨DisasterType.earthquake, sv, pop, area, m1⟩).capacity =
        (generateResourcePrediction
          ⟨DisasterType.earthquake, sv, pop, area, m2⟩).capacity ∧
      (generateResourcePrediction
          ⟨DisasterType.earthquake, sv, pop, area, m1⟩).vehicles =
        (generateResourcePrediction
          ⟨DisasterType.earthquake, sv, pop, area, m2⟩).vehicles ∧
      (generateResourcePrediction
          ⟨DisasterType.earthquake, sv, pop, area, m1⟩).rescueType =
        (generateResourcePrediction
          ⟨DisasterType.earthquake, sv, pop, area, m2⟩).rescueType ∧
      (generateResourcePrediction
          ⟨DisasterType.earthquake, sv, pop, area, m1⟩).medicalEquipment =
        (generateResourcePrediction
          ⟨DisasterType.earthquake, sv, pop, area, m2⟩).medicalEquipment ∧
      (generateResourcePrediction
          ⟨DisasterType.earthquake, sv, pop, area, m1⟩).vehicleTypes =
        (generateResourcePrediction
          ⟨DisasterType.earthquake, sv, pop, area, m2⟩).vehicleTypes ∧
      (generateResourcePrediction
          ⟨DisasterType.earthquake, sv, pop, area, m1⟩).magnitude = m1 ∧
      (generateResourcePrediction
          ⟨DisasterType.earthquake, sv, pop, area, m2⟩).magnitude = m2 :=
  ⟨rfl, rfl, rfl, rfl, rfl, rfl, rfl, rfl, rfl, rfl, rfl, rfl⟩

end Sentinel
